import Mathlib

/-!
Verification development for the ppt-to-images HTTP service, a shallow
embedding of the two source files of the repository:

* api_server.py   — task store, task runner, API layer
* ppt_exporter.py — converter (LibreOffice / pdf2image / aspose dispatch)

The Python expression in progress_callback (api_server.py, line 140)

    progress = 30 + int((current / total) * 55)

is evaluated in IEEE-754 binary64 arithmetic.  To stay faithful to the
source it is modelled exactly: flRound below is binary64
round-to-nearest, ties-to-even, over the rationals, with an unbounded
exponent range (overflow and subnormals are ignored; they are
unreachable for any realistic slide count).  Both the division and the
multiplication by 55 round once, as in CPython.
-/

/-- Round a rational to the nearest integer, ties to even: the mantissa
rounding step of binary64 arithmetic. -/
def roundNE (s : ℚ) : ℤ :=
  if Int.fract s < 1/2 then ⌊s⌋
  else if 1/2 < Int.fract s then ⌊s⌋ + 1
  else if 2 ∣ ⌊s⌋ then ⌊s⌋ else ⌊s⌋ + 1

/-- binary64 rounding of a positive rational: scale into the 53-bit
mantissa range, round to the nearest integer (ties to even), scale
back. -/
def flRoundPos (q : ℚ) : ℚ :=
  ((roundNE (q * 2 ^ ((52 : ℤ) - Int.log 2 q)) : ℤ) : ℚ) * 2 ^ (Int.log 2 q - 52)

/-- binary64 rounding (round to nearest, ties to even), extended to all
rationals by sign symmetry. -/
def flRound (q : ℚ) : ℚ :=
  if q = 0 then 0 else if 0 < q then flRoundPos q else -flRoundPos (-q)

/-- The value of task.progress written by progress_callback
(api_server.py, lines 140-141) before clamping: the Python float
expression int((current / total) * 55). -/
def pyProgressRaw (c t : ℕ) : ℕ :=
  (⌊flRound (flRound ((c : ℚ) / (t : ℚ)) * 55)⌋).toNat

/-- The clamped progress value min(progress, 85) stored by
progress_callback (api_server.py, line 141). -/
def pyCallbackProgress (c t : ℕ) : ℕ :=
  min (30 + pyProgressRaw c t) 85

/-- Python str.endswith for a single suffix. -/
def pyEndsWith (s suf : String) : Bool :=
  suf.data.isSuffixOf s.data

/-- ASCII lower-casing of one character, the effect of Python str.lower
on the file names considered here. -/
def asciiLower (c : Char) : Char :=
  if 65 ≤ c.toNat ∧ c.toNat ≤ 90 then Char.ofNat (c.toNat + 32) else c

/-- Python str.lower over the characters of a string. -/
def pyLower (s : String) : String :=
  ⟨s.data.map asciiLower⟩

/-- File-extension validation of the two HTTP endpoints
(api_server.py lines 187 and 442): a case-sensitive suffix test against
the two literal extensions. -/
def endpointValidExt (name : String) : Bool :=
  pyEndsWith name (".ppt") || pyEndsWith name (".pptx")

/-- Input validation of PPTExporter.export (ppt_exporter.py line 110):
the lower-cased path must end in .ppt or .pptx. -/
def exporterValidExt (path : String) : Bool :=
  pyEndsWith (pyLower path) (".ppt") || pyEndsWith (pyLower path) (".pptx")

/-- Zero-padding to width 3: the Python format {index:03d}. -/
def pad3 (n : ℕ) : String :=
  if n < 10 then "00" ++ toString n
  else if n < 100 then "0" ++ toString n
  else toString n

/-- Output image file name {prefix}_{index:03d}.{format}
(ppt_exporter.py line 233). -/
def mkImageName (pfx : String) (i : ℕ) (fmt : String) : String :=
  pfx ++ "_" ++ pad3 i ++ "." ++ fmt

/-- A file path kept as directory plus base name, so that
os.path.basename is the base projection. -/
structure FPath where
  dir : String
  base : String
deriving DecidableEq

/-- Availability of the three conversion backends, as probed by
PPTExporter._check_dependencies. -/
structure ExporterEnv where
  has_libreoffice : Bool
  has_pdf2image : Bool
  has_aspose : Bool
deriving DecidableEq

/-- The files written by the save loop of _export_with_libreoffice
(ppt_exporter.py lines 224-249): one image per PDF page, named
{prefix}_{i:03d}.{format} with i = 1..n, in slide order. -/
def exportFiles (outDir pfx fmt : String) (n : ℕ) : List FPath :=
  (List.range n).map (fun i => ⟨outDir, mkImageName pfx (i + 1) fmt⟩)

/-- Model of _export_with_libreoffice (ppt_exporter.py lines 139-249). The
external two-stage pipeline outcome is the parameter pdfResult: .error
carries the message of a LibreOffice failure, timeout or missing PDF;
.ok n is the page count of the produced PDF. After the PDF stage the
pdf2image library must be importable. -/
def exportWithLibreoffice (env : ExporterEnv) (outDir pfx fmt : String)
    (pdfResult : Except String ℕ) : Except String (List FPath) :=
  match pdfResult with
  | .error e => .error e
  | .ok n =>
    if env.has_pdf2image then .ok (exportFiles outDir pfx fmt n)
    else .error ("需要安装 pdf2image: pip install pdf2image Pillow")

/-- Model of _export_with_pdf2image (ppt_exporter.py lines 251-265): requires
LibreOffice and otherwise delegates to _export_with_libreoffice. -/
def exportWithPdf2image (env : ExporterEnv) (outDir pfx fmt : String)
    (pdfResult : Except String ℕ) : Except String (List FPath) :=
  if !env.has_libreoffice then .error ("此方法需要 LibreOffice 来转换 PPT 为 PDF")
  else exportWithLibreoffice env outDir pfx fmt pdfResult

/-- Model of _export_with_aspose (ppt_exporter.py lines 267-333): rasterizes the
nSlides slides directly, with the same naming contract. -/
def exportWithAspose (env : ExporterEnv) (outDir pfx fmt : String)
    (nSlides : ℕ) : Except String (List FPath) :=
  if !env.has_aspose then .error ("需要安装 aspose.slides: pip install aspose.slides")
  else .ok (exportFiles outDir pfx fmt nSlides)

/-- PPTExporter.export (ppt_exporter.py lines 84-137): input checks,
auto backend selection in fixed priority order, dispatch. pathExists
models os.path.exists on the input path. -/
def PPTExporter_export (env : ExporterEnv) (pathExists : Bool) (pptPath outDir : String)
    (method pfx fmt : String) (pdfResult : Except String ℕ) (nSlides : ℕ) :
    Except String (List FPath) :=
  if !pathExists then .error ("文件不存在: " ++ pptPath)
  else if !exporterValidExt pptPath then .error ("仅支持 .ppt 或 .pptx 格式")
  else
    match (if method = "auto" then
            (if env.has_libreoffice then some ("libreoffice")
             else if env.has_pdf2image then some ("pdf2image")
             else if env.has_aspose then some ("aspose") else none)
           else some method) with
    | none => .error ("未找到可用的转换工具")
    | some m =>
      if m = "libreoffice" then exportWithLibreoffice env outDir pfx fmt pdfResult
      else if m = "pdf2image" then exportWithPdf2image env outDir pfx fmt pdfResult
      else if m = "aspose" then exportWithAspose env outDir pfx fmt nSlides
      else .error ("不支持的方法: " ++ m)

/-- Task states (api_server.py TaskStatus, lines 62-66). -/
inductive TaskStatus where
  | pending
  | processing
  | completed
  | failed
deriving DecidableEq

/-- One entry of the images list of a completed task
(api_server.py lines 331-338). -/
structure ImageEntry where
  slide_number : ℕ
  url : String
  filename : String
deriving DecidableEq

/-- TaskInfo (api_server.py lines 69-84). Timestamps are abstract
ticks supplied by the caller. -/
structure TaskInfo where
  task_id : String
  filename : String
  status : TaskStatus
  progress : ℕ
  total_slides : ℕ
  current_slide : ℕ
  created_at : ℕ
  updated_at : ℕ
  status_message : String
  images : List ImageEntry
  error : Option String
deriving DecidableEq

/-- Shared server state: the in-memory tasks_cache, which per-task
output directories exist under OUTPUT_BASE_DIR, which temporary upload
files exist, and the background runners scheduled so far. -/
structure ServerState where
  tasks_cache : String → Option TaskInfo
  output_dirs : String → Bool
  temp_files : String → Bool
  scheduled : List String

/-- Configured base URL for image links (api_server.py line 59,
default value of the environment-overridable setting). -/
def API_BASE_URL : String := "http://localhost:4000"

/-- Output base directory name (api_server.py line 48). -/
def OUTPUT_BASE_DIR : String := "output"

def setTask (f : String → Option TaskInfo) (k : String) (v : TaskInfo) :
    String → Option TaskInfo :=
  fun id => if id = k then some v else f id

def setFlag (f : String → Bool) (k : String) (v : Bool) : String → Bool :=
  fun x => if x = k then v else f x

/-- The status message written by progress_callback
(api_server.py line 143). -/
def savedMessage (fname : String) (current total : ℕ) : String :=
  "✓ 已保存: " ++ fname ++ " (" ++ toString current ++ "/" ++ toString total ++ ")"

/-- progress_callback (api_server.py lines 130-147), applied to the
task record it found in the cache. -/
def progressCallbackApply (task : TaskInfo) (current total : ℕ) (fname : String)
    (now : ℕ) : TaskInfo :=
  { task with
    current_slide := current
    total_slides := total
    progress := pyCallbackProgress current total
    status_message := savedMessage fname current total
    updated_at := now }

/-- The callback loop of the save phase: on_progress(i, total, name)
for each saved image in order (ppt_exporter.py lines 227-247 driving
api_server.py progress_callback). -/
def runCallbacks (task : TaskInfo) (files : List FPath) (now : ℕ) : TaskInfo :=
  files.enum.foldl
    (fun t p => progressCallbackApply t (p.1 + 1) files.length p.2.base now) task

/-- The images list construction (api_server.py lines 331-338 and
471-478): array position i carries slide number i+1. -/
def buildImages (folder : String) (files : List FPath) : List ImageEntry :=
  files.enum.map (fun p =>
    { slide_number := p.1 + 1
      url := API_BASE_URL ++ "/images/" ++ folder ++ "/" ++ p.2.base
      filename := p.2.base })

/-- The externally visible per-request actions of the Submit endpoint,
in program order. -/
inductive ApiStep where
  | create_record (id : String)
  | save_temp (path : String)
  | schedule_runner (id : String)
deriving DecidableEq

structure SubmitResult where
  state : ServerState
  response : Except (ℕ × String) String
  steps : List ApiStep

/-- POST /api/convert-async (api_server.py lines 174-233): validate the
extension, create the pending record in the cache, save the upload to a
temporary file, schedule the background runner, return the task id. -/
def convert_ppt_async (st : ServerState) (fname : String) (dpi : ℕ) (fmt : String)
    (tid tmpPath : String) (now : ℕ) : SubmitResult :=
  if endpointValidExt fname then
    let info : TaskInfo :=
      { task_id := tid
        filename := fname
        status := .pending
        progress := 0
        total_slides := 0
        current_slide := 0
        created_at := now
        updated_at := now
        status_message := "等待处理..."
        images := []
        error := none }
    { state :=
        { tasks_cache := setTask st.tasks_cache tid info
          output_dirs := st.output_dirs
          temp_files := setFlag st.temp_files tmpPath true
          scheduled := st.scheduled ++ [tid] }
      response := .ok tid
      steps := [.create_record tid, .save_temp tmpPath, .schedule_runner tid] }
  else
    { state := st, response := .error (400, "仅支持 .ppt 或 .pptx 格式"), steps := [] }

/-- GET /api/task/{task_id} (api_server.py lines 370-385). -/
def get_task_status (st : ServerState) (tid : String) : Except (ℕ × String) TaskInfo :=
  match st.tasks_cache tid with
  | none => .error (404, "任务不存在")
  | some t => .ok t

/-- The task record as mutated through the preparation phases of
process_ppt_task (progress 5, 10, 15, 30; api_server.py lines 246-297).
probe is get_ppt_slide_count's result (0 when the library is missing or
the read failed, lines 90-127). -/
def phaseTask (task0 : TaskInfo) (probe : ℕ) (now : ℕ) : TaskInfo :=
  let t1 : TaskInfo :=
    { task0 with
      status := .processing
      progress := 5
      status_message := "读取 PPT 信息..."
      updated_at := now }
  let t2 : TaskInfo :=
    if 0 < probe then
      { t1 with
        total_slides := probe
        status_message := "检测到 " ++ toString probe ++ " 张幻灯片，准备转换..."
        updated_at := now }
    else
      { t1 with
        status_message := "准备转换..."
        updated_at := now }
  let t3 : TaskInfo :=
    { t2 with
      progress := 10
      status_message := "转换为 PDF..."
      updated_at := now }
  let t4 : TaskInfo :=
    { t3 with
      progress := 15
      status_message := "正在使用 LibreOffice 转换 PDF..."
      updated_at := now }
  { t4 with
    progress := 30
    status_message :=
      if 0 < t4.total_slides then
        "PDF 转换为图片 (0/" ++ toString t4.total_slides ++ ")..."
      else "PDF 转换为图片..."
    updated_at := now }

/-- The task record on the success path of process_ppt_task
(api_server.py lines 313-346): the callback loop has run, total_slides
is reconciled with the actual output count, progress moves to 90 and
then 100 with the images list attached. -/
def successTask (t5 : TaskInfo) (tid : String) (files : List FPath) (now : ℕ) : TaskInfo :=
  let t6 := runCallbacks t5 files now
  let actual := files.length
  let t7 : TaskInfo :=
    if actual ≠ t6.total_slides then { t6 with total_slides := actual } else t6
  let t8 : TaskInfo := { t7 with current_slide := actual }
  let t9 : TaskInfo :=
    { t8 with
      progress := 90
      status_message := "正在生成图片 URL (" ++ toString actual ++ " 张)..."
      updated_at := now }
  { t9 with
    status := .completed
    progress := 100
    current_slide := actual
    status_message := "转换完成！共 " ++ toString actual ++ " 张图片"
    images := buildImages tid files
    updated_at := now }

/-- The task record on the failure path of process_ppt_task
(api_server.py lines 348-360). -/
def failureTask (t5 : TaskInfo) (e : String) (now : ℕ) : TaskInfo :=
  { t5 with
    status := .failed
    status_message := "转换失败"
    error := some e
    updated_at := now }

/-- process_ppt_task (api_server.py lines 236-367). External outcomes
are parameters: probe is get_ppt_slide_count's result, and the
converter backends' outcomes are pdfResult and nSlides as in
PPTExporter_export. On converter failure the record turns failed and
the output directory is deleted; in every case reaching the try block
the temporary upload file is removed at the end. When the task id is
not in the cache the function returns before the try block, so nothing
(including the temporary file) is touched. -/
def process_ppt_task (st : ServerState) (env : ExporterEnv) (tid tmpPath : String)
    (dpi : ℕ) (fmt : String) (probe : ℕ) (pdfResult : Except String ℕ) (nSlides : ℕ)
    (now : ℕ) : ServerState :=
  match st.tasks_cache tid with
  | none => st
  | some task0 =>
    let t5 := phaseTask task0 probe now
    let stDir : ServerState :=
      { st with
        tasks_cache := setTask st.tasks_cache tid t5
        output_dirs := setFlag st.output_dirs tid true }
    match PPTExporter_export env (st.temp_files tmpPath) tmpPath
        (OUTPUT_BASE_DIR ++ "/" ++ tid) "auto" "slide" fmt pdfResult nSlides with
    | .ok files =>
      { stDir with
        tasks_cache := setTask stDir.tasks_cache tid (successTask t5 tid files now)
        temp_files := setFlag stDir.temp_files tmpPath false }
    | .error e =>
      { stDir with
        tasks_cache := setTask stDir.tasks_cache tid (failureTask t5 e now)
        output_dirs := setFlag stDir.output_dirs tid false
        temp_files := setFlag stDir.temp_files tmpPath false }

structure SyncResponse where
  folder_id : String
  count : ℕ
  images : List ImageEntry
deriving DecidableEq

/-- POST /api/convert (api_server.py lines 432-494), the synchronous
compatibility endpoint. On converter failure an HTTP 500 is raised;
os.unlink of the temporary file (line 480) sits on the success path
only. -/
def convert_ppt_sync (st : ServerState) (env : ExporterEnv) (fname : String)
    (dpi : ℕ) (fmt : String) (folderId tmpPath : String)
    (pdfResult : Except String ℕ) (nSlides : ℕ) :
    ServerState × Except (ℕ × String) SyncResponse :=
  if endpointValidExt fname then
    let st1 : ServerState :=
      { st with
        temp_files := setFlag st.temp_files tmpPath true
        output_dirs := setFlag st.output_dirs folderId true }
    match PPTExporter_export env (st1.temp_files tmpPath) tmpPath
        (OUTPUT_BASE_DIR ++ "/" ++ folderId) "auto" "slide" fmt pdfResult nSlides with
    | .ok files =>
      ({ st1 with temp_files := setFlag st1.temp_files tmpPath false },
        .ok { folder_id := folderId
              count := files.length
              images := buildImages folderId files })
    | .error e => (st1, .error (500, "转换失败: " ++ e))
  else (st, .error (400, "仅支持 .ppt 或 .pptx 格式文件"))

/-- The sequence of values assigned to task.progress over the life of
one successfully converted task with n output images: 0 at creation
(api_server.py line 201), the phase values 5/10/15/30 (lines 248, 269,
280, 286), one callback value per saved image (line 141), then 90 and
100 (lines 324, 342). A failed run writes a prefix of this sequence
(the failure handler does not touch progress). -/
def taskProgressTrace (n : ℕ) : List ℕ :=
  [0, 5, 10, 15, 30] ++ (List.range n).map (fun i => pyCallbackProgress (i + 1) n)
    ++ [90, 100]

/-- An empty server state, for the concrete scenarios. -/
def emptyState : ServerState :=
  { tasks_cache := fun _ => none
    output_dirs := fun _ => false
    temp_files := fun _ => false
    scheduled := [] }

/-- All three backends available. -/
def fullEnv : ExporterEnv :=
  { has_libreoffice := true
    has_pdf2image := true
    has_aspose := true }

/-- No backend available. -/
def noLibreEnv : ExporterEnv :=
  { has_libreoffice := false
    has_pdf2image := true
    has_aspose := false }

/-- The state right after a valid submit of a.pptx, used by the
concrete scenarios. -/
def submittedState : ServerState :=
  (convert_ppt_async emptyState "a.pptx" 300 "png" "t1" "tmp1.pptx" 0).state

deriving instance DecidableEq for Except

/-- A freshly created task record as built by convert_ppt_async for
task id t1 and file a.pptx at tick 0. -/
def submittedTask : TaskInfo :=
  { task_id := "t1"
    filename := "a.pptx"
    status := .pending
    progress := 0
    total_slides := 0
    current_slide := 0
    created_at := 0
    updated_at := 0
    status_message := "等待处理..."
    images := []
    error := none }

lemma floor_le_roundNE (s : ℚ) : ⌊s⌋ ≤ roundNE s := by
  unfold roundNE
  split_ifs <;> omega

lemma roundNE_le_floor_add_one (s : ℚ) : roundNE s ≤ ⌊s⌋ + 1 := by
  unfold roundNE
  split_ifs <;> omega

lemma roundNE_mono {s s' : ℚ} (h : s ≤ s') : roundNE s ≤ roundNE s' := by
  rcases lt_or_eq_of_le (Int.floor_mono h) with hf | hf
  · have h1 : roundNE s ≤ ⌊s⌋ + 1 := roundNE_le_floor_add_one s
    have h2 : ⌊s'⌋ ≤ roundNE s' := floor_le_roundNE s'
    omega
  · have h1 : Int.fract s ≤ Int.fract s' := by
      simp only [Int.fract]
      rw [hf]
      linarith
    unfold roundNE
    rw [hf]
    split_ifs <;> first | omega | linarith

lemma roundNE_intCast (n : ℤ) : roundNE ((n : ℤ) : ℚ) = n := by
  unfold roundNE
  have h1 : Int.fract ((n : ℤ) : ℚ) = 0 := Int.fract_intCast n
  rw [h1]
  norm_num

/-- Uniqueness of the binary exponent: if q lies in a binade, Int.log
finds that binade. -/
lemma log2_eq_of {q : ℚ} {k : ℤ} (h1 : (2 : ℚ) ^ k ≤ q) (h2 : q < (2 : ℚ) ^ (k + 1)) :
    Int.log 2 q = k := by
  have h2k : (0 : ℚ) < 2 ^ k := zpow_pos (by norm_num) k
  have hq : 0 < q := lt_of_lt_of_le h2k h1
  have hcast : ((2 : ℕ) : ℚ) = (2 : ℚ) := by norm_num
  have hk : k ≤ Int.log 2 q := by
    have hmono := @Int.log_mono_right ℚ _ _ 2 _ _ h2k h1
    rw [show ((2 : ℚ) ^ k) = ((2 : ℕ) : ℚ) ^ k by rw [hcast]] at hmono
    rw [@Int.log_zpow ℚ _ _ 2 (by norm_num) k] at hmono
    exact hmono
  have hk2 : Int.log 2 q ≤ k := by
    by_contra hcon
    push_neg at hcon
    have hcon' : k + 1 ≤ Int.log 2 q := by omega
    have hzz : (2 : ℚ) ^ (k + 1) ≤ (2 : ℚ) ^ Int.log 2 q :=
      zpow_le_zpow_right₀ (by norm_num) hcon'
    have hle := @Int.zpow_log_le_self ℚ _ _ 2 q (by norm_num) hq
    rw [hcast] at hle
    linarith
  omega

/-- The scaled value q * 2 ^ (52 - log q) lies in the mantissa range. -/
lemma mantissa_bounds {q : ℚ} (hq : 0 < q) :
    (2 : ℚ) ^ (52 : ℤ) ≤ q * 2 ^ ((52 : ℤ) - Int.log 2 q) ∧
      q * 2 ^ ((52 : ℤ) - Int.log 2 q) < 2 ^ (53 : ℤ) := by
  have hcast : ((2 : ℕ) : ℚ) = (2 : ℚ) := by norm_num
  have h1 := @Int.zpow_log_le_self ℚ _ _ 2 q (by norm_num) hq
  have h2 := @Int.lt_zpow_succ_log_self ℚ _ _ 2 (by norm_num) q
  rw [hcast] at h1 h2
  have hp : (0 : ℚ) < 2 ^ ((52 : ℤ) - Int.log 2 q) := zpow_pos (by norm_num) _
  constructor
  · have e1 : (2 : ℚ) ^ (52 : ℤ) = 2 ^ Int.log 2 q * 2 ^ ((52 : ℤ) - Int.log 2 q) := by
      rw [← zpow_add₀ (by norm_num : (2 : ℚ) ≠ 0)]
      congr 1
      omega
    rw [e1]
    exact mul_le_mul_of_nonneg_right h1 (le_of_lt hp)
  · have e2 : (2 : ℚ) ^ (53 : ℤ) = 2 ^ (Int.log 2 q + 1) * 2 ^ ((52 : ℤ) - Int.log 2 q) := by
      rw [← zpow_add₀ (by norm_num : (2 : ℚ) ≠ 0)]
      congr 1
      omega
    rw [e2]
    exact mul_lt_mul_of_pos_right h2 hp

lemma flRoundPos_lb {q : ℚ} (hq : 0 < q) :
    (2 : ℚ) ^ Int.log 2 q ≤ flRoundPos q := by
  obtain ⟨h1, _⟩ := mantissa_bounds hq
  set s := q * 2 ^ ((52 : ℤ) - Int.log 2 q) with hs
  have hfl : (2 : ℤ) ^ (52 : ℕ) ≤ ⌊s⌋ := by
    rw [Int.le_floor]
    calc ((2 ^ (52 : ℕ) : ℤ) : ℚ) = (2 : ℚ) ^ (52 : ℤ) := by norm_num
      _ ≤ s := h1
  have hr : (2 : ℤ) ^ (52 : ℕ) ≤ roundNE s := le_trans hfl (floor_le_roundNE s)
  unfold flRoundPos
  rw [← hs]
  have hcast : ((2 : ℚ) ^ (52 : ℤ)) ≤ ((roundNE s : ℤ) : ℚ) := by
    calc (2 : ℚ) ^ (52 : ℤ) = (((2 : ℤ) ^ (52 : ℕ) : ℤ) : ℚ) := by norm_num
      _ ≤ ((roundNE s : ℤ) : ℚ) := by exact_mod_cast hr
  have hp : (0 : ℚ) < 2 ^ (Int.log 2 q - 52) := zpow_pos (by norm_num) _
  calc (2 : ℚ) ^ Int.log 2 q = 2 ^ (52 : ℤ) * 2 ^ (Int.log 2 q - 52) := by
        rw [← zpow_add₀ (by norm_num : (2 : ℚ) ≠ 0)]
        congr 1
        omega
    _ ≤ ((roundNE s : ℤ) : ℚ) * 2 ^ (Int.log 2 q - 52) :=
        mul_le_mul_of_nonneg_right hcast (le_of_lt hp)

lemma flRoundPos_ub {q : ℚ} (hq : 0 < q) :
    flRoundPos q ≤ (2 : ℚ) ^ (Int.log 2 q + 1) := by
  obtain ⟨_, h2⟩ := mantissa_bounds hq
  set s := q * 2 ^ ((52 : ℤ) - Int.log 2 q) with hs
  have hfl : ⌊s⌋ < (2 : ℤ) ^ (53 : ℕ) := by
    rw [Int.floor_lt]
    calc s < (2 : ℚ) ^ (53 : ℤ) := h2
      _ = (((2 : ℤ) ^ (53 : ℕ) : ℤ) : ℚ) := by norm_num
  have hr : roundNE s ≤ (2 : ℤ) ^ (53 : ℕ) := by
    have := roundNE_le_floor_add_one s
    omega
  unfold flRoundPos
  rw [← hs]
  have hcast : ((roundNE s : ℤ) : ℚ) ≤ (2 : ℚ) ^ (53 : ℤ) := by
    calc ((roundNE s : ℤ) : ℚ) ≤ (((2 : ℤ) ^ (53 : ℕ) : ℤ) : ℚ) := by exact_mod_cast hr
      _ = (2 : ℚ) ^ (53 : ℤ) := by norm_num
  have hp : (0 : ℚ) < 2 ^ (Int.log 2 q - 52) := zpow_pos (by norm_num) _
  calc ((roundNE s : ℤ) : ℚ) * 2 ^ (Int.log 2 q - 52)
      ≤ (2 : ℚ) ^ (53 : ℤ) * 2 ^ (Int.log 2 q - 52) :=
        mul_le_mul_of_nonneg_right hcast (le_of_lt hp)
    _ = (2 : ℚ) ^ (Int.log 2 q + 1) := by
        rw [← zpow_add₀ (by norm_num : (2 : ℚ) ≠ 0)]
        congr 1
        omega

lemma flRoundPos_pos {q : ℚ} (hq : 0 < q) : 0 < flRoundPos q :=
  lt_of_lt_of_le (zpow_pos (by norm_num) _) (flRoundPos_lb hq)

lemma flRoundPos_mono {q q' : ℚ} (hq : 0 < q) (h : q ≤ q') :
    flRoundPos q ≤ flRoundPos q' := by
  have hq' : 0 < q' := lt_of_lt_of_le hq h
  rcases lt_or_eq_of_le (@Int.log_mono_right ℚ _ _ 2 _ _ hq h) with hk | hk
  · calc flRoundPos q ≤ (2 : ℚ) ^ (Int.log 2 q + 1) := flRoundPos_ub hq
      _ ≤ (2 : ℚ) ^ Int.log 2 q' := zpow_le_zpow_right₀ (by norm_num) (by omega)
      _ ≤ flRoundPos q' := flRoundPos_lb hq'
  · unfold flRoundPos
    rw [hk]
    have hs : q * 2 ^ ((52 : ℤ) - Int.log 2 q') ≤ q' * 2 ^ ((52 : ℤ) - Int.log 2 q') :=
      mul_le_mul_of_nonneg_right h (le_of_lt (zpow_pos (by norm_num) _))
    have hr := roundNE_mono hs
    have hp : (0 : ℚ) ≤ 2 ^ (Int.log 2 q' - 52) := le_of_lt (zpow_pos (by norm_num) _)
    exact mul_le_mul_of_nonneg_right (by exact_mod_cast hr) hp

lemma flRound_of_pos {q : ℚ} (hq : 0 < q) : flRound q = flRoundPos q := by
  unfold flRound
  rw [if_neg (ne_of_gt hq), if_pos hq]

lemma flRound_pos {q : ℚ} (hq : 0 < q) : 0 < flRound q := by
  rw [flRound_of_pos hq]
  exact flRoundPos_pos hq

lemma flRound_mono_pos {q q' : ℚ} (hq : 0 < q) (h : q ≤ q') :
    flRound q ≤ flRound q' := by
  rw [flRound_of_pos hq, flRound_of_pos (lt_of_lt_of_le hq h)]
  exact flRoundPos_mono hq h

/-- Concrete evaluation rule for flRound in the round-down case: if the
scaled value sits in the mantissa range and its fractional part is below
one half, flRound returns the truncated mantissa. -/
lemma flRound_eq_down {q : ℚ} {e m : ℤ}
    (h1 : (4503599627370496 : ℚ) ≤ q * 2 ^ (-e))
    (h2 : q * 2 ^ (-e) < 9007199254740992)
    (h3 : ((m : ℤ) : ℚ) ≤ q * 2 ^ (-e))
    (h4 : q * 2 ^ (-e) - ((m : ℤ) : ℚ) < 1/2) :
    flRound q = ((m : ℤ) : ℚ) * 2 ^ e := by
  have hpe : (0 : ℚ) < 2 ^ (-e) := zpow_pos (by norm_num) _
  have hpe' : (0 : ℚ) < 2 ^ e := zpow_pos (by norm_num) _
  have hcancel : (2 : ℚ) ^ (-e) * 2 ^ e = 1 := by
    rw [← zpow_add₀ (by norm_num : (2 : ℚ) ≠ 0)]
    norm_num
  have hq : 0 < q := by
    by_contra hcon
    push_neg at hcon
    have : q * 2 ^ (-e) ≤ 0 := mul_nonpos_of_nonpos_of_nonneg hcon (le_of_lt hpe)
    linarith
  have h52 : (2 : ℚ) ^ (52 : ℤ) = 4503599627370496 := by
    rw [show ((52 : ℤ)) = ((52 : ℕ) : ℤ) by norm_num, zpow_natCast]
    norm_num
  have h53 : (2 : ℚ) ^ (53 : ℤ) = 9007199254740992 := by
    rw [show ((53 : ℤ)) = ((53 : ℕ) : ℤ) by norm_num, zpow_natCast]
    norm_num
  have hlog : Int.log 2 q = e + 52 := by
    apply log2_eq_of
    · have hlo : (2 : ℚ) ^ (52 : ℤ) ≤ q * 2 ^ (-e) := by rw [h52]; exact h1
      have hstep : (2 : ℚ) ^ (52 : ℤ) * 2 ^ e ≤ (q * 2 ^ (-e)) * 2 ^ e :=
        mul_le_mul_of_nonneg_right hlo (le_of_lt hpe')
      have he1 : (2 : ℚ) ^ (e + 52) = 2 ^ (52 : ℤ) * 2 ^ e := by
        rw [← zpow_add₀ (by norm_num : (2 : ℚ) ≠ 0)]
        congr 1
        omega
      have he2 : (q * 2 ^ (-e)) * 2 ^ e = q := by
        calc (q * 2 ^ (-e)) * 2 ^ e = q * (2 ^ (-e) * 2 ^ e) := by ring
          _ = q := by rw [hcancel]; ring
      rw [he1, ← he2]
      exact hstep
    · have hhi : q * 2 ^ (-e) < (2 : ℚ) ^ (53 : ℤ) := by rw [h53]; exact h2
      have hstep : (q * 2 ^ (-e)) * 2 ^ e < (2 : ℚ) ^ (53 : ℤ) * 2 ^ e :=
        mul_lt_mul_of_pos_right hhi hpe'
      have he1 : (2 : ℚ) ^ (53 : ℤ) * 2 ^ e = (2 : ℚ) ^ (e + 52 + 1) := by
        rw [← zpow_add₀ (by norm_num : (2 : ℚ) ≠ 0)]
        congr 1
        omega
      have he2 : (q * 2 ^ (-e)) * 2 ^ e = q := by
        calc (q * 2 ^ (-e)) * 2 ^ e = q * (2 ^ (-e) * 2 ^ e) := by ring
          _ = q := by rw [hcancel]; ring
      rw [← he1, ← he2]
      exact hstep
  have hfloor : ⌊q * 2 ^ (-e)⌋ = m := by
    rw [Int.floor_eq_iff]
    constructor
    · exact h3
    · linarith
  have hfr : Int.fract (q * 2 ^ (-e)) < 1/2 := by
    simp only [Int.fract, hfloor]
    linarith
  have hround : roundNE (q * 2 ^ (-e)) = m := by
    unfold roundNE
    rw [if_pos hfr, hfloor]
  rw [flRound_of_pos hq]
  unfold flRoundPos
  rw [hlog]
  rw [show (52 : ℤ) - (e + 52) = -e by omega, show e + 52 - 52 = e by omega]
  rw [hround]

lemma zpow_neg54_eval : (2 : ℚ) ^ (-(-(54 : ℤ))) = 18014398509481984 := by
  rw [neg_neg, show ((54 : ℤ)) = ((54 : ℕ) : ℤ) by norm_num, zpow_natCast]
  norm_num

lemma zpow_neg49_eval : (2 : ℚ) ^ (-(-(49 : ℤ))) = 562949953421312 := by
  rw [neg_neg, show ((49 : ℤ)) = ((49 : ℕ) : ℤ) by norm_num, zpow_natCast]
  norm_num

lemma zpow_m54_eval : (2 : ℚ) ^ (-(54 : ℤ)) = 1 / 18014398509481984 := by
  rw [zpow_neg, show ((54 : ℤ)) = ((54 : ℕ) : ℤ) by norm_num, zpow_natCast]
  norm_num

lemma zpow_m49_eval : (2 : ℚ) ^ (-(49 : ℤ)) = 1 / 562949953421312 := by
  rw [zpow_neg, show ((49 : ℤ)) = ((49 : ℕ) : ℤ) by norm_num, zpow_natCast]
  norm_num

/-- binary64 evaluation of the division 3 / 11: the result is one ulp
below the real quotient. -/
lemma flRound_3_11 : flRound ((3 : ℚ) / 11) = ((4913017775313268 : ℤ) : ℚ) * 2 ^ (-(54 : ℤ)) := by
  apply flRound_eq_down
  · rw [zpow_neg54_eval]; norm_num
  · rw [zpow_neg54_eval]; norm_num
  · rw [zpow_neg54_eval]; push_cast; norm_num
  · rw [zpow_neg54_eval]; push_cast; norm_num

/-- binary64 evaluation of the subsequent multiplication by 55: the
product lands one ulp below 15, so Python's int() truncates to 14. -/
lemma flRound_3_11_mul55 :
    flRound (((4913017775313268 : ℤ) : ℚ) * 2 ^ (-(54 : ℤ)) * 55) =
      ((8444249301319679 : ℤ) : ℚ) * 2 ^ (-(49 : ℤ)) := by
  apply flRound_eq_down
  · rw [zpow_neg49_eval, zpow_m54_eval]; push_cast; norm_num
  · rw [zpow_neg49_eval, zpow_m54_eval]; push_cast; norm_num
  · rw [zpow_neg49_eval, zpow_m54_eval]; push_cast; norm_num
  · rw [zpow_neg49_eval, zpow_m54_eval]; push_cast; norm_num

lemma pyProgressRaw_3_11 : pyProgressRaw 3 11 = 14 := by
  unfold pyProgressRaw
  rw [show ((3 : ℕ) : ℚ) / ((11 : ℕ) : ℚ) = (3 : ℚ) / 11 by norm_num]
  rw [flRound_3_11, flRound_3_11_mul55]
  have hf : ⌊((8444249301319679 : ℤ) : ℚ) * 2 ^ (-(49 : ℤ))⌋ = (14 : ℤ) := by
    rw [Int.floor_eq_iff]
    rw [zpow_m49_eval]
    constructor
    · push_cast; norm_num
    · push_cast; norm_num
  rw [hf]
  rfl

lemma pyCallbackProgress_3_11 : pyCallbackProgress 3 11 = 44 := by
  unfold pyCallbackProgress
  rw [pyProgressRaw_3_11]
  rfl

/-- The exact-arithmetic formula of the spec at the same input. -/
lemma specProgress_3_11 : min (30 + (⌊((3 : ℚ) / 11) * 55⌋).toNat) 85 = 45 := by
  rw [show ((3 : ℚ) / 11) * 55 = ((15 : ℤ) : ℚ) by norm_num, Int.floor_intCast]
  rfl

lemma pyCallbackProgress_le (c t : ℕ) : pyCallbackProgress c t ≤ 85 :=
  min_le_right _ _

lemma pyCallbackProgress_ge (c t : ℕ) : 30 ≤ pyCallbackProgress c t :=
  le_min (Nat.le_add_right 30 _) (by norm_num)

lemma pyCallbackProgress_mono {t c c' : ℕ} (hc : 1 ≤ c) (h : c ≤ c') :
    pyCallbackProgress c t ≤ pyCallbackProgress c' t := by
  rcases Nat.eq_zero_or_pos t with ht | ht
  · subst ht
    unfold pyCallbackProgress pyProgressRaw
    norm_num
  · have htq : (0 : ℚ) < (t : ℚ) := by exact_mod_cast ht
    have hcq : (0 : ℚ) < (c : ℚ) / (t : ℚ) :=
      div_pos (by exact_mod_cast lt_of_lt_of_le Nat.zero_lt_one hc) htq
    have hdiv : (c : ℚ) / (t : ℚ) ≤ (c' : ℚ) / (t : ℚ) :=
      div_le_div_of_nonneg_right (by exact_mod_cast h) (le_of_lt htq)
    have h1 := flRound_mono_pos hcq hdiv
    have hpos1 : 0 < flRound ((c : ℚ) / (t : ℚ)) := flRound_pos hcq
    have h2 : flRound ((c : ℚ) / (t : ℚ)) * 55 ≤ flRound ((c' : ℚ) / (t : ℚ)) * 55 := by
      linarith
    have hpos2 : 0 < flRound ((c : ℚ) / (t : ℚ)) * 55 := by linarith
    have h3 := flRound_mono_pos hpos2 h2
    have h4 := Int.floor_mono h3
    have h5 := Int.toNat_le_toNat h4
    unfold pyCallbackProgress pyProgressRaw
    have h6 : 30 + (⌊flRound (flRound ((c : ℚ) / (t : ℚ)) * 55)⌋).toNat ≤
        30 + (⌊flRound (flRound ((c' : ℚ) / (t : ℚ)) * 55)⌋).toNat :=
      Nat.add_le_add_left h5 30
    exact min_le_min h6 (le_refl 85)

lemma setTask_same (f : String → Option TaskInfo) (k : String) (v : TaskInfo) :
    setTask f k v k = some v := by
  simp [setTask]

lemma setFlag_same (f : String → Bool) (k : String) (v : Bool) :
    setFlag f k v k = v := by
  simp [setFlag]

lemma runCallbacks_preserves (t : TaskInfo) (files : List FPath) (now : ℕ) :
    (runCallbacks t files now).status = t.status ∧
      (runCallbacks t files now).images = t.images ∧
      (runCallbacks t files now).error = t.error := by
  unfold runCallbacks
  generalize files.enum = l
  induction l generalizing t with
  | nil => exact ⟨rfl, rfl, rfl⟩
  | cons hd tl ih =>
    simp only [List.foldl_cons]
    have h := ih (progressCallbackApply t (hd.1 + 1) files.length hd.2.base now)
    simpa [progressCallbackApply] using h

lemma exportFiles_length (d p f : String) (n : ℕ) :
    (exportFiles d p f n).length = n := by
  simp [exportFiles]

lemma exportFiles_bases (d p f : String) (n : ℕ) :
    (exportFiles d p f n).map (fun x => x.base) =
      (List.range n).map (fun i => mkImageName p (i + 1) f) := by
  simp [exportFiles, List.map_map]

lemma buildImages_length (folder : String) (files : List FPath) :
    (buildImages folder files).length = files.length := by
  simp [buildImages]

lemma buildImages_slide_numbers (folder : String) (files : List FPath) :
    (buildImages folder files).map (fun e => e.slide_number) =
      (List.range files.length).map (fun i => i + 1) := by
  unfold buildImages
  rw [List.map_map, ← List.enum_map_fst files, List.map_map]
  rfl

lemma buildImages_filenames (folder : String) (files : List FPath) :
    (buildImages folder files).map (fun e => e.filename) =
      files.map (fun x => x.base) := by
  unfold buildImages
  rw [List.map_map]
  have h : files.enum.map Prod.snd = files := List.enum_map_snd files
  calc files.enum.map ((fun e : ImageEntry => e.filename) ∘ fun p =>
        ({ slide_number := p.1 + 1
           url := API_BASE_URL ++ "/images/" ++ folder ++ "/" ++ p.2.base
           filename := p.2.base } : ImageEntry))
      = files.enum.map ((fun x : FPath => x.base) ∘ Prod.snd) := rfl
    _ = (files.enum.map Prod.snd).map (fun x => x.base) := by rw [List.map_map]
    _ = files.map (fun x => x.base) := by rw [h]

lemma successTask_status (t5 : TaskInfo) (tid : String) (files : List FPath) (now : ℕ) :
    (successTask t5 tid files now).status = .completed := rfl

lemma successTask_progress (t5 : TaskInfo) (tid : String) (files : List FPath) (now : ℕ) :
    (successTask t5 tid files now).progress = 100 := rfl

lemma successTask_current (t5 : TaskInfo) (tid : String) (files : List FPath) (now : ℕ) :
    (successTask t5 tid files now).current_slide = files.length := rfl

lemma successTask_images (t5 : TaskInfo) (tid : String) (files : List FPath) (now : ℕ) :
    (successTask t5 tid files now).images = buildImages tid files := rfl

lemma successTask_total (t5 : TaskInfo) (tid : String) (files : List FPath) (now : ℕ) :
    (successTask t5 tid files now).total_slides = files.length := by
  unfold successTask
  dsimp only
  split_ifs with h
  · rfl
  · exact (not_not.mp h).symm

lemma successTask_error (t5 : TaskInfo) (tid : String) (files : List FPath) (now : ℕ) :
    (successTask t5 tid files now).error = t5.error := by
  unfold successTask
  dsimp only
  have h := (runCallbacks_preserves t5 files now).2.2
  split_ifs <;> exact h

lemma failureTask_fields (t5 : TaskInfo) (e : String) (now : ℕ) :
    (failureTask t5 e now).status = .failed ∧
      (failureTask t5 e now).error = some e ∧
      (failureTask t5 e now).images = t5.images ∧
      (failureTask t5 e now).progress = t5.progress ∧
      (failureTask t5 e now).status_message = "转换失败" := by
  exact ⟨rfl, rfl, rfl, rfl, rfl⟩

lemma phaseTask_error (task0 : TaskInfo) (probe : ℕ) (now : ℕ) :
    (phaseTask task0 probe now).error = task0.error := by
  unfold phaseTask
  split_ifs <;> rfl

lemma phaseTask_images (task0 : TaskInfo) (probe : ℕ) (now : ℕ) :
    (phaseTask task0 probe now).images = task0.images := by
  unfold phaseTask
  split_ifs <;> rfl

lemma phaseTask_progress (task0 : TaskInfo) (probe : ℕ) (now : ℕ) :
    (phaseTask task0 probe now).progress = 30 := rfl

/-- Success-path characterisation of the background runner. -/
lemma process_ok_spec (st : ServerState) (env : ExporterEnv) (tid tmpPath : String)
    (dpi : ℕ) (fmt : String) (probe : ℕ) (pdfResult : Except String ℕ) (nSlides : ℕ)
    (now : ℕ) (task0 : TaskInfo) (files : List FPath)
    (htask : st.tasks_cache tid = some task0)
    (hexp : PPTExporter_export env (st.temp_files tmpPath) tmpPath
        (OUTPUT_BASE_DIR ++ "/" ++ tid) "auto" "slide" fmt pdfResult nSlides = .ok files) :
    (process_ppt_task st env tid tmpPath dpi fmt probe pdfResult nSlides now).tasks_cache tid
        = some (successTask (phaseTask task0 probe now) tid files now) ∧
      (process_ppt_task st env tid tmpPath dpi fmt probe pdfResult nSlides now).output_dirs tid
        = true ∧
      (process_ppt_task st env tid tmpPath dpi fmt probe pdfResult nSlides now).temp_files tmpPath
        = false := by
  unfold process_ppt_task
  simp only [htask, hexp]
  exact ⟨setTask_same _ _ _, setFlag_same _ _ _, setFlag_same _ _ _⟩

/-- Failure-path characterisation of the background runner. -/
lemma process_err_spec (st : ServerState) (env : ExporterEnv) (tid tmpPath : String)
    (dpi : ℕ) (fmt : String) (probe : ℕ) (pdfResult : Except String ℕ) (nSlides : ℕ)
    (now : ℕ) (task0 : TaskInfo) (e : String)
    (htask : st.tasks_cache tid = some task0)
    (hexp : PPTExporter_export env (st.temp_files tmpPath) tmpPath
        (OUTPUT_BASE_DIR ++ "/" ++ tid) "auto" "slide" fmt pdfResult nSlides = .error e) :
    (process_ppt_task st env tid tmpPath dpi fmt probe pdfResult nSlides now).tasks_cache tid
        = some (failureTask (phaseTask task0 probe now) e now) ∧
      (process_ppt_task st env tid tmpPath dpi fmt probe pdfResult nSlides now).output_dirs tid
        = false ∧
      (process_ppt_task st env tid tmpPath dpi fmt probe pdfResult nSlides now).temp_files tmpPath
        = false := by
  unfold process_ppt_task
  simp only [htask, hexp]
  exact ⟨setTask_same _ _ _, setFlag_same _ _ _, setFlag_same _ _ _⟩

lemma export_auto_libre (env : ExporterEnv) (pptPath outDir pfx fmt : String)
    (n nSlides : ℕ) (hlo : env.has_libreoffice = true) (hpi : env.has_pdf2image = true)
    (hx : exporterValidExt pptPath = true) :
    PPTExporter_export env true pptPath outDir ("auto") pfx fmt (.ok n) nSlides =
      .ok (exportFiles outDir pfx fmt n) := by
  unfold PPTExporter_export exportWithLibreoffice
  simp [hlo, hpi, hx]

lemma append_ne_empty_left (a b : String) (ha : a.data ≠ []) : a ++ b ≠ "" := by
  intro h
  have hd := congrArg String.data h
  rw [String.data_append] at hd
  simp only [List.append_eq_nil] at hd
  exact ha hd.1

/-- Every error message produced by the export dispatcher is non-empty,
provided the messages of the external PDF stage are (which holds for
the three raises in _export_with_libreoffice: the timeout message, the
prefixed LibreOffice failure message, and the missing-PDF message). -/
lemma export_error_nonempty (env : ExporterEnv) (pathExists : Bool)
    (pptPath outDir method pfx fmt : String) (pdfResult : Except String ℕ)
    (nSlides : ℕ) (e : String)
    (hpdf : ∀ e', pdfResult = .error e' → e' ≠ "")
    (hexp : PPTExporter_export env pathExists pptPath outDir method pfx fmt
        pdfResult nSlides = .error e) :
    e ≠ "" := by
  unfold PPTExporter_export exportWithPdf2image exportWithAspose exportWithLibreoffice at hexp
  repeat' split at hexp
  all_goals try exact (Except.noConfusion hexp)
  all_goals rw [Except.error.injEq] at hexp
  all_goals subst hexp
  all_goals
    first
      | decide
      | exact hpdf _ rfl
      | exact append_ne_empty_left _ _ (by decide)

lemma process_keeps_record (st : ServerState) (env : ExporterEnv) (tid tmpPath : String)
    (dpi : ℕ) (fmt : String) (probe : ℕ) (pdfResult : Except String ℕ) (nSlides : ℕ)
    (now : ℕ) (task0 : TaskInfo) (htask : st.tasks_cache tid = some task0) :
    ∃ t', (process_ppt_task st env tid tmpPath dpi fmt probe pdfResult nSlides
        now).tasks_cache tid = some t' := by
  cases hE : PPTExporter_export env (st.temp_files tmpPath) tmpPath
      (OUTPUT_BASE_DIR ++ "/" ++ tid) ("auto") ("slide") fmt pdfResult nSlides with
  | ok files =>
    exact ⟨_, (process_ok_spec st env tid tmpPath dpi fmt probe pdfResult nSlides now
      task0 files htask hE).1⟩
  | error e =>
    exact ⟨_, (process_err_spec st env tid tmpPath dpi fmt probe pdfResult nSlides now
      task0 e htask hE).1⟩

lemma process_removes_temp (st : ServerState) (env : ExporterEnv) (tid tmpPath : String)
    (dpi : ℕ) (fmt : String) (probe : ℕ) (pdfResult : Except String ℕ) (nSlides : ℕ)
    (now : ℕ) (task0 : TaskInfo) (htask : st.tasks_cache tid = some task0) :
    (process_ppt_task st env tid tmpPath dpi fmt probe pdfResult nSlides
        now).temp_files tmpPath = false := by
  cases hE : PPTExporter_export env (st.temp_files tmpPath) tmpPath
      (OUTPUT_BASE_DIR ++ "/" ++ tid) ("auto") ("slide") fmt pdfResult nSlides with
  | ok files =>
    exact (process_ok_spec st env tid tmpPath dpi fmt probe pdfResult nSlides now
      task0 files htask hE).2.2
  | error e =>
    exact (process_err_spec st env tid tmpPath dpi fmt probe pdfResult nSlides now
      task0 e htask hE).2.2

/-- Claim C1: over a task's lifetime the sequence of progress values
written to its record — 0 at creation, the runner phase values
5/10/15/30, the converter progress-hook values, then 90 and 100 on
success — is monotonically non-decreasing and stays within [0, 100];
every prefix (a failed run stops writing at some point and writes
nothing further) is monotone as well. -/
theorem c1_progress_monotone_bounded (n : ℕ) :
    List.Chain' (· ≤ ·) (taskProgressTrace n) ∧
      (∀ p ∈ taskProgressTrace n, p ≤ 100) ∧
      (∀ l, l <+: taskProgressTrace n → List.Chain' (· ≤ ·) l) := by
  have hM : ∀ x ∈ (List.range n).map (fun i => pyCallbackProgress (i + 1) n),
      30 ≤ x ∧ x ≤ 85 := by
    intro x hx
    simp only [List.mem_map, List.mem_range] at hx
    obtain ⟨i, _, rfl⟩ := hx
    exact ⟨pyCallbackProgress_ge _ _, pyCallbackProgress_le _ _⟩
  have hpw : List.Pairwise (· ≤ ·) (taskProgressTrace n) := by
    unfold taskProgressTrace
    rw [List.append_assoc, List.pairwise_append]
    refine ⟨by decide, ?_, ?_⟩
    · rw [List.pairwise_append]
      refine ⟨?_, by decide, ?_⟩
      · rw [List.pairwise_map]
        refine (List.pairwise_lt_range n).imp ?_
        intro i j hij
        exact pyCallbackProgress_mono (by omega) (by omega)
      · intro x hx y hy
        have h1 := (hM x hx).2
        have h2 : 90 ≤ y := by
          simp only [List.mem_cons, List.not_mem_nil, or_false] at hy
          rcases hy with rfl | rfl <;> omega
        omega
    · intro x hx y hy
      have hx30 : x ≤ 30 := by
        simp only [List.mem_cons, List.not_mem_nil, or_false] at hx
        rcases hx with rfl | rfl | rfl | rfl | rfl <;> omega
      rw [List.mem_append] at hy
      rcases hy with hy | hy
      · exact le_trans hx30 (hM y hy).1
      · have h2 : 90 ≤ y := by
          simp only [List.mem_cons, List.not_mem_nil, or_false] at hy
          rcases hy with rfl | rfl <;> omega
        omega
  refine ⟨List.chain'_iff_pairwise.mpr hpw, ?_, ?_⟩
  · intro p hp
    unfold taskProgressTrace at hp
    rw [List.append_assoc, List.mem_append] at hp
    rcases hp with hp | hp
    · simp only [List.mem_cons, List.not_mem_nil, or_false] at hp
      rcases hp with rfl | rfl | rfl | rfl | rfl <;> omega
    · rw [List.mem_append] at hp
      rcases hp with hp | hp
      · have := (hM p hp).2
        omega
      · simp only [List.mem_cons, List.not_mem_nil, or_false] at hp
        rcases hp with rfl | rfl <;> omega
  · intro l hl
    exact List.chain'_iff_pairwise.mpr (List.Pairwise.sublist hl.sublist hpw)

/-- Claim C2 counterexample: at the progress-hook call
(current, total) = (3, 11) the code stores progress 44 — the binary64
evaluation of 30 + int((3/11)*55) — while the claimed exact formula
min(30 + floor(current/total*55), 85) yields 45. -/
theorem c2_counterexample :
    (progressCallbackApply submittedTask 3 11 ("slide_003.png") 0).progress = 44 ∧
      min (30 + (⌊((3 : ℚ) / 11) * 55⌋).toNat) 85 = 45 ∧
      (progressCallbackApply submittedTask 3 11 ("slide_003.png") 0).progress ≠
        min (30 + (⌊((3 : ℚ) / 11) * 55⌋).toNat) 85 := by
  refine ⟨pyCallbackProgress_3_11, specProgress_3_11, ?_⟩
  rw [specProgress_3_11]
  have h := pyCallbackProgress_3_11
  show pyCallbackProgress 3 11 ≠ 45
  omega

/-- Claim C2 (amended): for every progress-hook call with
1 ≤ current ≤ total on a task present in the cache, the stored progress
is min(30 + int(fl(fl(current/total) * 55)), 85) with fl the binary64
rounding — the floating-point evaluation of the claimed formula, which
can fall one below its exact value — and it always lies in [30, 85];
statusMessage is overwritten to a string mentioning current and
total. -/
theorem c2_amended (task : TaskInfo) (c t : ℕ) (fname : String) (now : ℕ)
    (hc : 1 ≤ c) (hct : c ≤ t) :
    (progressCallbackApply task c t fname now).progress = pyCallbackProgress c t ∧
      30 ≤ (progressCallbackApply task c t fname now).progress ∧
      (progressCallbackApply task c t fname now).progress ≤ 85 ∧
      (∃ pre post : String,
        (progressCallbackApply task c t fname now).status_message =
          pre ++ toString c ++ "/" ++ toString t ++ post) := by
  refine ⟨rfl, pyCallbackProgress_ge c t, pyCallbackProgress_le c t, ?_⟩
  exact ⟨"✓ 已保存: " ++ fname ++ " (", ")", rfl⟩

theorem c2_witness :
    (1 ≤ 1 ∧ 1 ≤ 1) ∧
      ((progressCallbackApply submittedTask 1 1 ("slide_001.png") 0).progress =
          pyCallbackProgress 1 1 ∧
        30 ≤ (progressCallbackApply submittedTask 1 1 ("slide_001.png") 0).progress ∧
        (progressCallbackApply submittedTask 1 1 ("slide_001.png") 0).progress ≤ 85 ∧
        (∃ pre post : String,
          (progressCallbackApply submittedTask 1 1 ("slide_001.png") 0).status_message =
            pre ++ toString 1 ++ "/" ++ toString 1 ++ post)) :=
  ⟨⟨by decide, by decide⟩,
    c2_amended submittedTask 1 1 ("slide_001.png") 0 (by decide) (by decide)⟩

/-- Claim C3 counterexample: a run whose converter returns zero output
files ends with status completed and an empty images list, falsifying
the claimed equivalence in the completed state. -/
theorem c3_counterexample :
    ((process_ppt_task submittedState fullEnv ("t1") ("tmp1.pptx") 300 ("png") 3
        (.ok 0) 0 1).tasks_cache ("t1")).map (fun t => (t.status, t.images)) =
      some (TaskStatus.completed, ([] : List ImageEntry)) := by
  decide

/-- Claim C3 (amended): a record created by Submit is pending with empty
images; a failed run keeps images empty (it never populates them); a
successful run sets status completed with one images entry per
converter output file — so images is non-empty iff the task completed
with at least one output file, and a completed task whose converter
returned zero files has empty images. -/
theorem c3_amended (st : ServerState) (env : ExporterEnv) (tid tmpPath : String)
    (dpi : ℕ) (fmt : String) (probe : ℕ) (pdfResult : Except String ℕ) (nSlides : ℕ)
    (now : ℕ) (task0 : TaskInfo)
    (htask : st.tasks_cache tid = some task0) (himg : task0.images = []) :
    (∀ fname st2 dpi2 fmt2 tid2 tmp2 now2, endpointValidExt fname = true →
      ∃ rec : TaskInfo,
        (convert_ppt_async st2 fname dpi2 fmt2 tid2 tmp2 now2).state.tasks_cache tid2
            = some rec ∧ rec.status = .pending ∧ rec.images = []) ∧
    (∀ e, PPTExporter_export env (st.temp_files tmpPath) tmpPath
          (OUTPUT_BASE_DIR ++ "/" ++ tid) ("auto") ("slide") fmt pdfResult nSlides
            = .error e →
      ∃ tFin : TaskInfo,
        (process_ppt_task st env tid tmpPath dpi fmt probe pdfResult nSlides
            now).tasks_cache tid = some tFin ∧
          tFin.status = .failed ∧ tFin.images = []) ∧
    (∀ files, PPTExporter_export env (st.temp_files tmpPath) tmpPath
          (OUTPUT_BASE_DIR ++ "/" ++ tid) ("auto") ("slide") fmt pdfResult nSlides
            = .ok files →
      ∃ tFin : TaskInfo,
        (process_ppt_task st env tid tmpPath dpi fmt probe pdfResult nSlides
            now).tasks_cache tid = some tFin ∧
          tFin.status = .completed ∧ tFin.images.length = files.length ∧
          (tFin.images = [] ↔ files = [])) := by
  refine ⟨?_, ?_, ?_⟩
  · intro fname st2 dpi2 fmt2 tid2 tmp2 now2 hv
    unfold convert_ppt_async
    rw [if_pos hv]
    refine ⟨_, setTask_same _ _ _, ?_, ?_⟩ <;> rfl
  · intro e hexp
    obtain ⟨h1, _, _⟩ := process_err_spec st env tid tmpPath dpi fmt probe pdfResult
      nSlides now task0 e htask hexp
    refine ⟨_, h1, (failureTask_fields _ _ _).1, ?_⟩
    have h2 := (failureTask_fields (phaseTask task0 probe now) e now).2.2.1
    rw [h2, phaseTask_images, himg]
  · intro files hexp
    obtain ⟨h1, _, _⟩ := process_ok_spec st env tid tmpPath dpi fmt probe pdfResult
      nSlides now task0 files htask hexp
    refine ⟨_, h1, successTask_status _ _ _ _, ?_, ?_⟩
    · rw [successTask_images, buildImages_length]
    · rw [successTask_images]
      constructor
      · intro h
        have := congrArg List.length h
        rw [buildImages_length] at this
        exact List.length_eq_zero.mp this
      · intro h
        subst h
        rfl

theorem c3_witness :
    (submittedState.tasks_cache ("t1") = some submittedTask ∧
        submittedTask.images = []) ∧
      (∀ e, PPTExporter_export fullEnv (submittedState.temp_files ("tmp1.pptx"))
            ("tmp1.pptx") (OUTPUT_BASE_DIR ++ "/" ++ "t1") ("auto") ("slide") ("png")
            (.ok 2) 0 = .error e →
        ∃ tFin : TaskInfo,
          (process_ppt_task submittedState fullEnv ("t1") ("tmp1.pptx") 300 ("png") 3
              (.ok 2) 0 1).tasks_cache ("t1") = some tFin ∧
            tFin.status = .failed ∧ tFin.images = []) ∧
      (∀ files, PPTExporter_export fullEnv (submittedState.temp_files ("tmp1.pptx"))
            ("tmp1.pptx") (OUTPUT_BASE_DIR ++ "/" ++ "t1") ("auto") ("slide") ("png")
            (.ok 2) 0 = .ok files →
        ∃ tFin : TaskInfo,
          (process_ppt_task submittedState fullEnv ("t1") ("tmp1.pptx") 300 ("png") 3
              (.ok 2) 0 1).tasks_cache ("t1") = some tFin ∧
            tFin.status = .completed ∧ tFin.images.length = files.length ∧
            (tFin.images = [] ↔ files = [])) :=
  ⟨⟨by decide, by decide⟩,
    (c3_amended submittedState fullEnv ("t1") ("tmp1.pptx") 300 ("png") 3 (.ok 2) 0 1
      submittedTask (by decide) (by decide)).2.1,
    (c3_amended submittedState fullEnv ("t1") ("tmp1.pptx") 300 ("png") 3 (.ok 2) 0 1
      submittedTask (by decide) (by decide)).2.2⟩

/-- Claim C4: when the runner's conversion fails, the final record is
failed with the failure description as a non-empty error (given that
the external PDF-stage messages are non-empty, as the three raises in
the source are), the task's output directory does not exist afterwards,
and the temporary file is gone. -/
theorem c4_failure_cleanup (st : ServerState) (env : ExporterEnv) (tid tmpPath : String)
    (dpi : ℕ) (fmt : String) (probe : ℕ) (pdfResult : Except String ℕ) (nSlides : ℕ)
    (now : ℕ) (task0 : TaskInfo) (e : String)
    (htask : st.tasks_cache tid = some task0)
    (hpdf : ∀ e', pdfResult = .error e' → e' ≠ "")
    (hexp : PPTExporter_export env (st.temp_files tmpPath) tmpPath
        (OUTPUT_BASE_DIR ++ "/" ++ tid) ("auto") ("slide") fmt pdfResult nSlides
          = .error e) :
    ∃ tFin : TaskInfo,
      (process_ppt_task st env tid tmpPath dpi fmt probe pdfResult nSlides
          now).tasks_cache tid = some tFin ∧
        tFin.status = .failed ∧ tFin.error = some e ∧ e ≠ "" ∧
        (process_ppt_task st env tid tmpPath dpi fmt probe pdfResult nSlides
            now).output_dirs tid = false ∧
        (process_ppt_task st env tid tmpPath dpi fmt probe pdfResult nSlides
            now).temp_files tmpPath = false := by
  obtain ⟨h1, h2, h3⟩ := process_err_spec st env tid tmpPath dpi fmt probe pdfResult
    nSlides now task0 e htask hexp
  exact ⟨_, h1, (failureTask_fields _ _ _).1, (failureTask_fields _ _ _).2.1,
    export_error_nonempty env (st.temp_files tmpPath) tmpPath
      (OUTPUT_BASE_DIR ++ "/" ++ tid) ("auto") ("slide") fmt pdfResult nSlides e
      hpdf hexp, h2, h3⟩

theorem c4_witness :
    (submittedState.tasks_cache ("t1") = some submittedTask ∧
        PPTExporter_export fullEnv (submittedState.temp_files ("tmp1.pptx"))
            ("tmp1.pptx") (OUTPUT_BASE_DIR ++ "/" ++ "t1") ("auto") ("slide") ("png")
            (.error ("LibreOffice 转换失败: boom")) 0
          = .error ("LibreOffice 转换失败: boom")) ∧
      ∃ tFin : TaskInfo,
        (process_ppt_task submittedState fullEnv ("t1") ("tmp1.pptx") 300 ("png") 3
            (.error ("LibreOffice 转换失败: boom")) 0 1).tasks_cache ("t1")
            = some tFin ∧
          tFin.status = .failed ∧
          tFin.error = some ("LibreOffice 转换失败: boom") ∧
          ("LibreOffice 转换失败: boom" : String) ≠ "" ∧
          (process_ppt_task submittedState fullEnv ("t1") ("tmp1.pptx") 300 ("png") 3
              (.error ("LibreOffice 转换失败: boom")) 0 1).output_dirs ("t1") = false ∧
          (process_ppt_task submittedState fullEnv ("t1") ("tmp1.pptx") 300 ("png") 3
              (.error ("LibreOffice 转换失败: boom")) 0 1).temp_files ("tmp1.pptx")
            = false :=
  ⟨⟨by decide, by decide⟩,
    c4_failure_cleanup submittedState fullEnv ("t1") ("tmp1.pptx") 300 ("png") 3
      (.error ("LibreOffice 转换失败: boom")) 0 1 submittedTask
      ("LibreOffice 转换失败: boom") (by decide)
      (fun e' he' => by injection he' with h; subst h; decide) (by decide)⟩

/-- Claim C5: with the LibreOffice pipeline available, the converter's
output files are named slide_{index:03d}.{format} with a 1-based
contiguous index in slide order, and the completed record pairs array
position i with slide number i+1, so slide numbers are exactly
1..totalSlides with no gaps or duplicates and images length equals
totalSlides. -/
theorem c5_naming_and_numbering (st : ServerState) (env : ExporterEnv)
    (tid tmpPath : String) (dpi : ℕ) (fmt : String) (probe n nSlides now : ℕ)
    (task0 : TaskInfo)
    (htask : st.tasks_cache tid = some task0)
    (htmp : st.temp_files tmpPath = true)
    (hx : exporterValidExt tmpPath = true)
    (hlo : env.has_libreoffice = true) (hpi : env.has_pdf2image = true) :
    (exportFiles (OUTPUT_BASE_DIR ++ "/" ++ tid) ("slide") fmt n).map (fun x => x.base)
        = (List.range n).map (fun i => mkImageName ("slide") (i + 1) fmt) ∧
      ∃ tFin : TaskInfo,
        (process_ppt_task st env tid tmpPath dpi fmt probe (.ok n) nSlides
            now).tasks_cache tid = some tFin ∧
          tFin.total_slides = n ∧ tFin.images.length = n ∧
          tFin.images.map (fun e => e.slide_number)
              = (List.range n).map (fun i => i + 1) ∧
          tFin.images.map (fun e => e.filename)
              = (List.range n).map (fun i => mkImageName ("slide") (i + 1) fmt) := by
  have hexp : PPTExporter_export env (st.temp_files tmpPath) tmpPath
      (OUTPUT_BASE_DIR ++ "/" ++ tid) ("auto") ("slide") fmt (.ok n) nSlides
        = .ok (exportFiles (OUTPUT_BASE_DIR ++ "/" ++ tid) ("slide") fmt n) := by
    rw [htmp]
    exact export_auto_libre env tmpPath (OUTPUT_BASE_DIR ++ "/" ++ tid) ("slide") fmt
      n nSlides hlo hpi hx
  obtain ⟨h1, _, _⟩ := process_ok_spec st env tid tmpPath dpi fmt probe (.ok n)
    nSlides now task0 _ htask hexp
  refine ⟨exportFiles_bases _ _ _ _, _, h1, ?_, ?_, ?_, ?_⟩
  · rw [successTask_total, exportFiles_length]
  · rw [successTask_images, buildImages_length, exportFiles_length]
  · rw [successTask_images, buildImages_slide_numbers, exportFiles_length]
  · rw [successTask_images, buildImages_filenames, exportFiles_bases]

theorem c5_witness :
    (submittedState.tasks_cache ("t1") = some submittedTask ∧
        submittedState.temp_files ("tmp1.pptx") = true ∧
        exporterValidExt ("tmp1.pptx") = true ∧
        fullEnv.has_libreoffice = true ∧ fullEnv.has_pdf2image = true) ∧
      ((exportFiles (OUTPUT_BASE_DIR ++ "/" ++ "t1") ("slide") ("png") 2).map
          (fun x => x.base)
          = (List.range 2).map (fun i => mkImageName ("slide") (i + 1) ("png")) ∧
        ∃ tFin : TaskInfo,
          (process_ppt_task submittedState fullEnv ("t1") ("tmp1.pptx") 300 ("png") 3
              (.ok 2) 0 1).tasks_cache ("t1") = some tFin ∧
            tFin.total_slides = 2 ∧ tFin.images.length = 2 ∧
            tFin.images.map (fun e => e.slide_number)
                = (List.range 2).map (fun i => i + 1) ∧
            tFin.images.map (fun e => e.filename)
                = (List.range 2).map (fun i => mkImageName ("slide") (i + 1) ("png"))) :=
  ⟨⟨by decide, by decide, by decide, by decide, by decide⟩,
    c5_naming_and_numbering submittedState fullEnv ("t1") ("tmp1.pptx") 300 ("png")
      3 2 0 1 submittedTask (by decide) (by decide) (by decide) (by decide) (by decide)⟩

/-- Claim C6: a valid Submit inserts the pending record into the task
store before scheduling the background runner (step 0 against step 2 of
the request's action sequence), so a status query for the returned id
succeeds immediately after Submit returns, and still succeeds after the
runner has finished, whatever the conversion outcome. -/
theorem c6_record_before_schedule (st : ServerState) (fname : String) (dpi : ℕ)
    (fmt : String) (tid tmpPath : String) (now : ℕ)
    (hv : endpointValidExt fname = true) :
    (∃ rec : TaskInfo,
      (convert_ppt_async st fname dpi fmt tid tmpPath now).state.tasks_cache tid
          = some rec ∧ rec.status = .pending ∧
        get_task_status (convert_ppt_async st fname dpi fmt tid tmpPath now).state tid
          = .ok rec) ∧
    (∃ i j : ℕ, i < j ∧
      (convert_ppt_async st fname dpi fmt tid tmpPath now).steps.get? i
          = some (.create_record tid) ∧
      (convert_ppt_async st fname dpi fmt tid tmpPath now).steps.get? j
          = some (.schedule_runner tid)) ∧
    (∀ env probe pdfResult nSlides now2,
      ∃ rec2 : TaskInfo,
        get_task_status
          (process_ppt_task (convert_ppt_async st fname dpi fmt tid tmpPath now).state
            env tid tmpPath dpi fmt probe pdfResult nSlides now2) tid = .ok rec2) := by
  obtain ⟨rec, hrec, hpend⟩ : ∃ rec : TaskInfo,
      (convert_ppt_async st fname dpi fmt tid tmpPath now).state.tasks_cache tid
          = some rec ∧ rec.status = .pending := by
    unfold convert_ppt_async
    rw [if_pos hv]
    exact ⟨_, setTask_same _ _ _, rfl⟩
  refine ⟨⟨rec, hrec, hpend, ?_⟩, ?_, ?_⟩
  · unfold get_task_status
    rw [hrec]
  · unfold convert_ppt_async
    rw [if_pos hv]
    exact ⟨0, 2, by omega, rfl, rfl⟩
  · intro env probe pdfResult nSlides now2
    obtain ⟨t', ht'⟩ := process_keeps_record _ env tid tmpPath dpi fmt probe pdfResult
      nSlides now2 rec hrec
    refine ⟨t', ?_⟩
    unfold get_task_status
    rw [ht']

theorem c6_witness :
    endpointValidExt ("a.pptx") = true ∧
      ((∃ rec : TaskInfo,
        (convert_ppt_async emptyState ("a.pptx") 300 ("png") ("t1") ("tmp1.pptx")
            0).state.tasks_cache ("t1") = some rec ∧ rec.status = .pending ∧
          get_task_status
            (convert_ppt_async emptyState ("a.pptx") 300 ("png") ("t1") ("tmp1.pptx")
              0).state ("t1") = .ok rec) ∧
      (∃ i j : ℕ, i < j ∧
        (convert_ppt_async emptyState ("a.pptx") 300 ("png") ("t1") ("tmp1.pptx")
            0).steps.get? i = some (.create_record ("t1")) ∧
        (convert_ppt_async emptyState ("a.pptx") 300 ("png") ("t1") ("tmp1.pptx")
            0).steps.get? j = some (.schedule_runner ("t1"))) ∧
      (∀ env probe pdfResult nSlides now2,
        ∃ rec2 : TaskInfo,
          get_task_status
            (process_ppt_task
              (convert_ppt_async emptyState ("a.pptx") 300 ("png") ("t1")
                ("tmp1.pptx") 0).state
              env ("t1") ("tmp1.pptx") 300 ("png") probe pdfResult nSlides now2)
            ("t1") = .ok rec2)) :=
  ⟨by decide,
    c6_record_before_schedule emptyState ("a.pptx") 300 ("png") ("t1") ("tmp1.pptx") 0
      (by decide)⟩

/-- Claim C7 counterexample: the synchronous endpoint leaves the
temporary upload file behind when the conversion fails — cleanup there
is not unconditional. -/
theorem c7_counterexample :
    (convert_ppt_sync emptyState fullEnv ("a.pptx") 300 ("png") ("f1") ("tmp1.pptx")
        (.error ("LibreOffice 转换失败: boom")) 0).1.temp_files ("tmp1.pptx") = true ∧
      (convert_ppt_sync emptyState fullEnv ("a.pptx") 300 ("png") ("f1") ("tmp1.pptx")
          (.error ("LibreOffice 转换失败: boom")) 0).2
        = .error (500, "转换失败: LibreOffice 转换失败: boom") := by
  constructor
  · decide
  · decide

/-- Claim C7 (amended): the background runner removes the temporary
upload file unconditionally (success and failure alike) whenever the
task record exists; the synchronous compatibility endpoint removes it
only on success and leaves it behind when the conversion fails. -/
theorem c7_amended :
    (∀ st env tid tmpPath dpi fmt probe pdfResult nSlides now task0,
        st.tasks_cache tid = some task0 →
        (process_ppt_task st env tid tmpPath dpi fmt probe pdfResult nSlides
            now).temp_files tmpPath = false) ∧
    (∀ st env fname dpi fmt folderId tmpPath pdfResult nSlides,
        endpointValidExt fname = true →
        (∀ resp, (convert_ppt_sync st env fname dpi fmt folderId tmpPath pdfResult
            nSlides).2 = .ok resp →
          (convert_ppt_sync st env fname dpi fmt folderId tmpPath pdfResult
              nSlides).1.temp_files tmpPath = false) ∧
        (∀ err, (convert_ppt_sync st env fname dpi fmt folderId tmpPath pdfResult
            nSlides).2 = .error err →
          (convert_ppt_sync st env fname dpi fmt folderId tmpPath pdfResult
              nSlides).1.temp_files tmpPath = true)) := by
  constructor
  · intro st env tid tmpPath dpi fmt probe pdfResult nSlides now task0 htask
    exact process_removes_temp st env tid tmpPath dpi fmt probe pdfResult nSlides now
      task0 htask
  · intro st env fname dpi fmt folderId tmpPath pdfResult nSlides hv
    unfold convert_ppt_sync
    rw [if_pos hv]
    dsimp only
    cases hE : PPTExporter_export env (setFlag st.temp_files tmpPath true tmpPath)
        tmpPath (OUTPUT_BASE_DIR ++ "/" ++ folderId) ("auto") ("slide") fmt pdfResult
        nSlides with
    | ok files =>
      constructor
      · intro resp _
        exact setFlag_same _ _ _
      · intro err h
        exact absurd h (by simp)
    | error e =>
      constructor
      · intro resp h
        exact absurd h (by simp)
      · intro err _
        exact setFlag_same _ _ _

theorem c7_witness :
    submittedState.tasks_cache ("t1") = some submittedTask ∧
      (process_ppt_task submittedState fullEnv ("t1") ("tmp1.pptx") 300 ("png") 3
          (.ok 2) 0 1).temp_files ("tmp1.pptx") = false :=
  ⟨by decide,
    c7_amended.1 submittedState fullEnv ("t1") ("tmp1.pptx") 300 ("png") 3 (.ok 2) 0 1
      submittedTask (by decide)⟩

/-- Claim C8: a Submit whose filename fails the extension check is
rejected with HTTP 400 and nothing else happens: the returned state is
the incoming state unchanged (no record created, no file saved), and
the request's action sequence is empty (nothing scheduled). -/
theorem c8_invalid_extension_rejected (st : ServerState) (fname : String) (dpi : ℕ)
    (fmt : String) (tid tmpPath : String) (now : ℕ)
    (hv : endpointValidExt fname = false) :
    convert_ppt_async st fname dpi fmt tid tmpPath now =
      { state := st
        response := .error (400, "仅支持 .ppt 或 .pptx 格式")
        steps := [] } := by
  unfold convert_ppt_async
  rw [hv]
  simp

theorem c8_witness :
    endpointValidExt ("notes.txt") = false ∧
      convert_ppt_async emptyState ("notes.txt") 300 ("png") ("t1") ("tmp1.pptx") 0 =
        { state := emptyState
          response := .error (400, "仅支持 .ppt 或 .pptx 格式")
          steps := [] } :=
  ⟨by decide,
    c8_invalid_extension_rejected emptyState ("notes.txt") 300 ("png") ("t1")
      ("tmp1.pptx") 0 (by decide)⟩

/-- Claim C9: the pdf2image export method is a pure delegation — with
LibreOffice available it returns exactly what the libreoffice method
returns (also through the public dispatcher), and without LibreOffice
it fails with an error and can never return an output list. -/
theorem c9_pdf2image_refines_libreoffice (env : ExporterEnv) (outDir pfx fmt : String)
    (pdfResult : Except String ℕ) :
    (env.has_libreoffice = true →
        exportWithPdf2image env outDir pfx fmt pdfResult =
          exportWithLibreoffice env outDir pfx fmt pdfResult) ∧
      (env.has_libreoffice = false →
        exportWithPdf2image env outDir pfx fmt pdfResult =
          .error ("此方法需要 LibreOffice 来转换 PPT 为 PDF") ∧
        ∀ files, exportWithPdf2image env outDir pfx fmt pdfResult ≠ .ok files) ∧
      (env.has_libreoffice = true →
        ∀ pathExists pptPath nSlides,
          PPTExporter_export env pathExists pptPath outDir ("pdf2image") pfx fmt
              pdfResult nSlides =
            PPTExporter_export env pathExists pptPath outDir ("libreoffice") pfx fmt
              pdfResult nSlides) := by
  refine ⟨?_, ?_, ?_⟩
  · intro h
    unfold exportWithPdf2image
    rw [h]
    simp
  · intro h
    unfold exportWithPdf2image
    rw [h]
    exact ⟨by simp, fun files => by simp⟩
  · intro h pathExists pptPath nSlides
    unfold PPTExporter_export exportWithPdf2image
    rw [h]
    simp

theorem c9_witness :
    (fullEnv.has_libreoffice = true ∧ noLibreEnv.has_libreoffice = false) ∧
      exportWithPdf2image fullEnv ("output/t1") ("slide") ("png") (.ok 2) =
        exportWithLibreoffice fullEnv ("output/t1") ("slide") ("png") (.ok 2) ∧
      exportWithPdf2image noLibreEnv ("output/t1") ("slide") ("png") (.ok 2) =
        .error ("此方法需要 LibreOffice 来转换 PPT 为 PDF") :=
  ⟨⟨by decide, by decide⟩,
    (c9_pdf2image_refines_libreoffice fullEnv ("output/t1") ("slide") ("png")
      (.ok 2)).1 (by decide),
    ((c9_pdf2image_refines_libreoffice noLibreEnv ("output/t1") ("slide") ("png")
      (.ok 2)).2.1 (by decide)).1⟩

/-- Claim C10: both endpoints validate the upload name by an exact
case-sensitive suffix match against .ppt and .pptx — a name such as
deck.PPTX is rejected with HTTP 400 by either endpoint — while the
converter's own check lower-cases the path first and accepts it; in
general the converter's check equals the endpoint check applied to the
lower-cased name. -/
theorem c10_case_sensitive_suffix_check :
    (∀ name : String, exporterValidExt name = endpointValidExt (pyLower name)) ∧
      endpointValidExt ("deck.PPTX") = false ∧
      exporterValidExt ("deck.PPTX") = true ∧
      (∀ st dpi fmt tid tmpPath now,
        convert_ppt_async st ("deck.PPTX") dpi fmt tid tmpPath now =
          { state := st
            response := .error (400, "仅支持 .ppt 或 .pptx 格式")
            steps := [] }) ∧
      (∀ st env dpi fmt folderId tmpPath pdfResult nSlides,
        convert_ppt_sync st env ("deck.PPTX") dpi fmt folderId tmpPath pdfResult
            nSlides = (st, .error (400, "仅支持 .ppt 或 .pptx 格式文件"))) := by
  refine ⟨fun name => rfl, by decide, by decide, ?_, ?_⟩
  · intro st dpi fmt tid tmpPath now
    unfold convert_ppt_async
    rw [show endpointValidExt ("deck.PPTX") = false from by decide]
    simp
  · intro st env dpi fmt folderId tmpPath pdfResult nSlides
    unfold convert_ppt_sync
    rw [show endpointValidExt ("deck.PPTX") = false from by decide]
    simp
